import Mathlib

/-!
Verification of the ratarmount-ui argument model synchronizer and process
execution supervisor, shallowly embedded from `ratarmount-ui.py`.

The argument model is the pair `update_ui_from_args` (parse) and
`update_preview` (serialize); the supervisor is `start_execution`,
`on_child_exit`, `check_show_window` and `on_close_clicked`.  GTK widget
state (entries, check buttons, the spin button) is represented by the
corresponding record fields; the filesystem probes `os.path.exists` /
`os.path.isdir` are abstracted into an explicit `FsFake` parameter so the
positional-split heuristic is deterministic.
-/

namespace RatarmountUI

/-- Structured configuration held by the window widgets: check buttons
`check_recursive`, `check_lazy`, `check_strip`, `check_union`, spin button
`spin_depth`, entries `entry_password`, `entry_write_overlay`,
`mount_entry`, the source rows (logical, without the trailing empty
placeholder row, which `update_preview` skips anyway) and `extra_args`. -/
structure Configuration where
  recursive : Bool
  recursionDepth : Nat
  lazy : Bool
  strip : Bool
  writeOverlay : String
  password : String
  unionMount : Bool
  extraArgs : List String
  sources : List String
  mountPoint : String
deriving DecidableEq, Repr

/-- Fake filesystem: `pathExists` stands for `os.path.exists`, `isDir` for
`os.path.isdir`, fixed as a controllable parameter of `parse`. -/
structure FsFake where
  pathExists : String → Bool
  isDir : String → Bool

/-- Fake filesystem on which nothing exists. -/
def fsNone : FsFake := { pathExists := fun _ => false, isDir := fun _ => false }

/-- The test `arg.startswith("-")` from the parse loop: the first character
is a dash. -/
def flagLike (s : String) : Bool :=
  match s.toList with
  | '-' :: _ => true
  | _ => false

/-- All flag tokens recognized by the `update_ui_from_args` scan loop. -/
def recognizedTokens : List String :=
  ["-r", "--recursive", "--recursion-depth", "-l", "--lazy", "-s",
   "--strip-recursive-tar-extension", "--write-overlay", "--password",
   "--disable-union-mount"]

/-- Numeric value of a decimal digit character. -/
def digitVal (c : Char) : Nat := c.toNat - 48

/-- Value of a list of decimal digit characters. -/
def decimalValue (cs : List Char) : Nat := cs.foldl (fun a c => a * 10 + digitVal c) 0

/-- Python's `int(str)` on the plain decimal strings the program deals in:
an optional sign followed by a nonempty run of decimal digits; every other
string raises `ValueError`, modelled as `none`. -/
def pyInt (s : String) : Option Int :=
  match s.toList with
  | [] => none
  | '-' :: ds =>
      if ds ≠ [] ∧ ds.all (fun c => c.isDigit) then some (-(decimalValue ds : Int)) else none
  | '+' :: ds =>
      if ds ≠ [] ∧ ds.all (fun c => c.isDigit) then some ((decimalValue ds : Int)) else none
  | ds =>
      if ds.all (fun c => c.isDigit) then some ((decimalValue ds : Int)) else none

/-- `spin_depth.set_value`: the spin button is built with
`Gtk.SpinButton.new_with_range(0, 100, 1)`, so GTK clamps the stored value
into `[0, 100]`. -/
def spinSet (v : Int) : Nat := (min v 100).toNat

/-- Mutable state threaded through the `update_ui_from_args` scan loop:
the widget-backed fields plus the `extra_args` and `positional` buffers. -/
structure ScanState where
  recursive : Bool
  depth : Nat
  lazy : Bool
  strip : Bool
  overlay : String
  password : String
  unionMount : Bool
  extraArgs : List String
  positional : List String
deriving DecidableEq, Repr

/-- The UI reset at the top of `update_ui_from_args`. -/
def initScan : ScanState :=
  { recursive := false, depth := 0, lazy := false, strip := false,
    overlay := "", password := "", unionMount := true,
    extraArgs := [], positional := [] }

/-- One iteration of the `update_ui_from_args` scan loop for the final
token, where `i + 1 < len(args)` fails: a flag that requires a value is
pushed to `extra_args` instead of consuming anything. -/
def parseOne (arg : String) (s : ScanState) : ScanState :=
  if arg = "-r" ∨ arg = "--recursive" then { s with recursive := true }
  else if arg = "--recursion-depth" then { s with extraArgs := s.extraArgs ++ [arg] }
  else if arg = "-l" ∨ arg = "--lazy" then { s with lazy := true }
  else if arg = "-s" ∨ arg = "--strip-recursive-tar-extension" then { s with strip := true }
  else if arg = "--write-overlay" then { s with extraArgs := s.extraArgs ++ [arg] }
  else if arg = "--password" then { s with extraArgs := s.extraArgs ++ [arg] }
  else if arg = "--disable-union-mount" then { s with unionMount := false }
  else if flagLike arg then { s with extraArgs := s.extraArgs ++ [arg] }
  else { s with positional := s.positional ++ [arg] }

/-- The `while i < len(args)` scan loop of `update_ui_from_args`.  A flag
that requires a value consumes the following token unconditionally when one
exists; `--recursion-depth` additionally requires the value to parse as an
integer, and on failure pushes the flag token itself to `extra_args` and
leaves the value token to be reprocessed. -/
def parseLoop : List String → ScanState → ScanState
  | [], s => s
  | [arg], s => parseOne arg s
  | arg :: v :: rest, s =>
    if arg = "-r" ∨ arg = "--recursive" then
      parseLoop (v :: rest) { s with recursive := true }
    else if arg = "--recursion-depth" then
      match pyInt v with
      | some n => parseLoop rest { s with depth := spinSet n }
      | none => parseLoop (v :: rest) { s with extraArgs := s.extraArgs ++ [arg] }
    else if arg = "-l" ∨ arg = "--lazy" then
      parseLoop (v :: rest) { s with lazy := true }
    else if arg = "-s" ∨ arg = "--strip-recursive-tar-extension" then
      parseLoop (v :: rest) { s with strip := true }
    else if arg = "--write-overlay" then
      parseLoop rest { s with overlay := v }
    else if arg = "--password" then
      parseLoop rest { s with password := v }
    else if arg = "--disable-union-mount" then
      parseLoop (v :: rest) { s with unionMount := false }
    else if flagLike arg then
      parseLoop (v :: rest) { s with extraArgs := s.extraArgs ++ [arg] }
    else
      parseLoop (v :: rest) { s with positional := s.positional ++ [arg] }

/-- The positional split after the scan loop: with two or more entries the
last one goes to the mount point only if no filesystem entry exists there or
it is a directory; an existing non-directory keeps all entries as sources. -/
def splitPositional (fs : FsFake) (p : List String) : List String × String :=
  if 2 ≤ p.length then
    let lastArg := p.getLastD ""
    if fs.pathExists lastArg && !fs.isDir lastArg then (p, "")
    else (p.dropLast, lastArg)
  else (p, "")

/-- `update_ui_from_args`: reset, scan loop, positional split, assembled
into the structured configuration. -/
def parse (fs : FsFake) (args : List String) : Configuration :=
  let s := parseLoop args initScan
  let sm := splitPositional fs s.positional
  { recursive := s.recursive, recursionDepth := s.depth, lazy := s.lazy,
    strip := s.strip, writeOverlay := s.overlay, password := s.password,
    unionMount := s.unionMount, extraArgs := s.extraArgs,
    sources := sm.1, mountPoint := sm.2 }

/-- Argument part of `update_preview`: the command is seeded with
`"ratarmount"` and then only extended, so it factors as the program name
followed by this token list. -/
def serializeArgs (c : Configuration) : List String :=
  let cmd : List String := []
  let cmd := if c.password ≠ "" then cmd ++ ["--password", c.password] else cmd
  let cmd :=
    if c.recursive then
      let cmd := cmd ++ ["--recursive"]
      let cmd :=
        if 0 < c.recursionDepth then cmd ++ ["--recursion-depth", toString c.recursionDepth]
        else cmd
      let cmd := if c.lazy then cmd ++ ["--lazy"] else cmd
      if c.strip then cmd ++ ["--strip-recursive-tar-extension"] else cmd
    else cmd
  let cmd := if c.writeOverlay ≠ "" then cmd ++ ["--write-overlay", c.writeOverlay] else cmd
  let cmd := if !c.unionMount then cmd ++ ["--disable-union-mount"] else cmd
  let cmd := cmd ++ c.extraArgs
  let cmd := cmd ++ c.sources.filter (fun p => p ≠ "")
  if c.mountPoint ≠ "" then cmd ++ [c.mountPoint] else cmd

/-- Full preview command built by `update_preview` (before shell quoting). -/
def previewCmd (c : Configuration) : List String := "ratarmount" :: serializeArgs c

/-- The program-name strip in `on_preview_changed` before the tokens are fed
back into `update_ui_from_args`. -/
def onPreviewTokens (args : List String) : List String :=
  match args with
  | [] => []
  | a :: rest => if a = "ratarmount" then rest else args

/-- Password segment as the spec describes the emission order
(for comparison against the source-derived `serializeArgs`). -/
def specPasswordSeg (c : Configuration) : List String :=
  if c.password ≠ "" then ["--password", c.password] else []

/-- Recursion block as the spec describes it: `--recursive`, then
`--recursion-depth <d>` only when `d > 0`, then `--lazy`, then
`--strip-recursive-tar-extension`; nothing when `recursive` is false. -/
def specRecursionSeg (c : Configuration) : List String :=
  if c.recursive then
    ["--recursive"]
      ++ (if 0 < c.recursionDepth then ["--recursion-depth", toString c.recursionDepth] else [])
      ++ (if c.lazy then ["--lazy"] else [])
      ++ (if c.strip then ["--strip-recursive-tar-extension"] else [])
  else []

/-- Write-overlay segment as the spec describes it. -/
def specOverlaySeg (c : Configuration) : List String :=
  if c.writeOverlay ≠ "" then ["--write-overlay", c.writeOverlay] else []

/-- Union-mount segment as the spec describes it: a flag only when
`unionMount` is false. -/
def specUnionSeg (c : Configuration) : List String :=
  if c.unionMount then [] else ["--disable-union-mount"]

/-- Mount-point segment as the spec describes it: last, only if nonempty. -/
def specMountSeg (c : Configuration) : List String :=
  if c.mountPoint ≠ "" then [c.mountPoint] else []

/-- Serializer following the spec's emission description word for word:
password, recursion block, overlay, union-mount, extraArgs verbatim,
non-empty sources in order, mount point last. -/
def serializeSpec (c : Configuration) : List String :=
  specPasswordSeg c ++ specRecursionSeg c ++ specOverlaySeg c ++ specUnionSeg c
    ++ c.extraArgs ++ c.sources.filter (fun p => p ≠ "") ++ specMountSeg c

/-! ## Execution supervisor

`start_execution`, `on_child_exit`, `check_show_window` and
`on_close_clicked` manipulate window state; the fields below record the
pieces those handlers touch.  Spawning is abstracted as an `Except` value
(the `GLib.spawn_async` call either returns a pid or raises), and the OS
wait status as a `ChildStatus` (`os.WIFEXITED`/`os.WEXITSTATUS` versus
`os.WIFSIGNALED`/`os.WTERMSIG`). -/

/-- Decoded OS wait status of the child: a normal exit with its code, or a
termination by a signal (POSIX guarantees a signal number of at least 1). -/
inductive ChildStatus where
  | exited (code : Nat)
  | signaled (sig : Nat)
deriving DecidableEq, Repr

/-- Status decoding in `on_child_exit`: `os.WEXITSTATUS` on a normal exit,
the negated `os.WTERMSIG` on a signal kill. -/
def decodeStatus : ChildStatus → Int
  | ChildStatus.exited code => code
  | ChildStatus.signaled sig => -(sig : Int)

/-- Modelled from the spec: the `ExitOutcome` taxonomy
`{Success, ExitCode(n>0), Signaled(sig), SpawnFailed(reason)}`, which the
code itself represents only as the decoded integer `return_code` (and, for
spawn failures, as an error path that never sets `return_code`). -/
inductive ExitOutcome where
  | success
  | exitCode (n : Nat)
  | signaledBy (sig : Nat)
  | spawnFailed (reason : String)
deriving DecidableEq, Repr

/-- Modelled from the spec: classification of a decoded child status into
the `ExitOutcome` taxonomy (`Success` iff normal exit with code 0). -/
def classify : ChildStatus → ExitOutcome
  | ChildStatus.exited 0 => ExitOutcome.success
  | ChildStatus.exited (n + 1) => ExitOutcome.exitCode (n + 1)
  | ChildStatus.signaled sig => ExitOutcome.signaledBy sig

/-- Window state touched by the execution handlers: `child_pid`,
`return_code`, `is_hidden_execution`, whether `present()` has been called,
the visible stack page, the log buffer, the abort button, and the process
exit performed by `sys.exit` (`none` while the application is running). -/
structure SupState where
  childPid : Option Nat
  returnCode : Option Int
  isHiddenExecution : Bool
  presented : Bool
  visiblePage : String
  logText : String
  abortVisible : Bool
  appExit : Option Int
deriving DecidableEq, Repr

/-- State after `__init__` (before any auto-run): no child, no return code,
config page visible. -/
def initState : SupState :=
  { childPid := none, returnCode := none, isHiddenExecution := false,
    presented := false, visiblePage := "config", logText := "",
    abortVisible := false, appExit := none }

/-- `start_execution`: switch to the execution page, clear the log, show
the abort button, then spawn.  On success the pid is recorded; on a spawn
exception the error is logged, the abort button hidden, and a hidden
window is presented.  There is no check of an already-running child. -/
def startExecution (spawnResult : Except String Nat) (s : SupState) : SupState :=
  let s1 := { s with visiblePage := "execution", logText := "", abortVisible := true }
  match spawnResult with
  | Except.ok pid => { s1 with childPid := some pid }
  | Except.error e =>
    let s2 := { s1 with logText := "Error starting command: " ++ e, abortVisible := false }
    if s2.isHiddenExecution then { s2 with presented := true } else s2

/-- `on_child_exit`: clear `child_pid` first, hide the abort button, decode
the status into `return_code`; on zero call `sys.exit(0)`, otherwise
present the window when the execution had been hidden. -/
def onChildExit (status : ChildStatus) (s : SupState) : SupState :=
  let s1 := { s with childPid := none, abortVisible := false }
  let rc := decodeStatus status
  let s2 := { s1 with returnCode := some rc }
  if rc = 0 then { s2 with appExit := some 0 }
  else if s2.isHiddenExecution then { s2 with isHiddenExecution := false, presented := true }
  else s2

/-- `check_show_window`, the one-shot callback of the silent-start timer:
present the window iff the child is still running. -/
def checkShowWindow (s : SupState) : SupState :=
  if s.childPid ≠ none then { s with isHiddenExecution := false, presented := true } else s

/-- `on_close_clicked`: `sys.exit(return_code if return_code is not None
else 0)`. -/
def onCloseClicked (s : SupState) : SupState :=
  { s with appExit := some (s.returnCode.getD 0) }

/-- Duration in milliseconds of the silent-start timer armed by
`GLib.timeout_add` in `__init__` when `auto_run` is set. -/
def autoRunTimerMs : Nat := 1000

/-- The auto-run path of `__init__`: mark the execution hidden and start
the command (the 1-second timer for `check_show_window` is armed next). -/
def autoRunStart (spawnResult : Except String Nat) : SupState :=
  startExecution spawnResult { initState with isHiddenExecution := true }

/-! ## Helper lemmas about the scan loop -/

theorem pyInt_toString_fin :
    ∀ d : Fin 101, pyInt (toString (d : Nat)) = some ((d : Nat) : Int) := by decide

theorem pyInt_toString (d : Nat) (h : d ≤ 100) : pyInt (toString d) = some (d : Int) :=
  pyInt_toString_fin ⟨d, Nat.lt_succ_of_le h⟩

theorem spinSet_coe (d : Nat) (h : d ≤ 100) : spinSet (d : Int) = d := by
  unfold spinSet
  rw [min_eq_left (by exact_mod_cast h)]
  exact Int.toNat_natCast d

theorem parseLoop_nil (s : ScanState) : parseLoop [] s = s := rfl

theorem parseLoop_cons_recursive (rest : List String) (s : ScanState) :
    parseLoop ("--recursive" :: rest) s = parseLoop rest { s with recursive := true } := by
  cases rest with
  | nil => simp [parseLoop, parseOne]
  | cons v t => simp [parseLoop]

theorem parseLoop_cons_lazy (rest : List String) (s : ScanState) :
    parseLoop ("--lazy" :: rest) s = parseLoop rest { s with lazy := true } := by
  cases rest with
  | nil => simp [parseLoop, parseOne]
  | cons v t => simp [parseLoop]

theorem parseLoop_cons_strip (rest : List String) (s : ScanState) :
    parseLoop ("--strip-recursive-tar-extension" :: rest) s
      = parseLoop rest { s with strip := true } := by
  cases rest with
  | nil => simp [parseLoop, parseOne]
  | cons v t => simp [parseLoop]

theorem parseLoop_cons_union (rest : List String) (s : ScanState) :
    parseLoop ("--disable-union-mount" :: rest) s
      = parseLoop rest { s with unionMount := false } := by
  cases rest with
  | nil => simp [parseLoop, parseOne]
  | cons v t => simp [parseLoop]

theorem parseLoop_cons_password (v : String) (rest : List String) (s : ScanState) :
    parseLoop ("--password" :: v :: rest) s = parseLoop rest { s with password := v } := by
  simp [parseLoop]

theorem parseLoop_cons_overlay (v : String) (rest : List String) (s : ScanState) :
    parseLoop ("--write-overlay" :: v :: rest) s = parseLoop rest { s with overlay := v } := by
  simp [parseLoop]

theorem parseLoop_cons_depth_ok {v : String} {n : Int} (hv : pyInt v = some n)
    (rest : List String) (s : ScanState) :
    parseLoop ("--recursion-depth" :: v :: rest) s
      = parseLoop rest { s with depth := spinSet n } := by
  simp [parseLoop, hv]

theorem parseLoop_cons_depth_bad {v : String} (hv : pyInt v = none)
    (rest : List String) (s : ScanState) :
    parseLoop ("--recursion-depth" :: v :: rest) s
      = parseLoop (v :: rest) { s with extraArgs := s.extraArgs ++ ["--recursion-depth"] } := by
  simp [parseLoop, hv]

theorem parseLoop_single_depth (s : ScanState) :
    parseLoop ["--recursion-depth"] s
      = { s with extraArgs := s.extraArgs ++ ["--recursion-depth"] } := by
  simp [parseLoop, parseOne]

theorem parseLoop_single_password (s : ScanState) :
    parseLoop ["--password"] s = { s with extraArgs := s.extraArgs ++ ["--password"] } := by
  simp [parseLoop, parseOne]

theorem parseLoop_single_overlay (s : ScanState) :
    parseLoop ["--write-overlay"] s
      = { s with extraArgs := s.extraArgs ++ ["--write-overlay"] } := by
  simp [parseLoop, parseOne]

theorem parseLoop_cons_extra {a : String} (ha : flagLike a = true)
    (hn : a ∉ recognizedTokens) (rest : List String) (s : ScanState) :
    parseLoop (a :: rest) s = parseLoop rest { s with extraArgs := s.extraArgs ++ [a] } := by
  simp only [recognizedTokens, List.mem_cons, List.not_mem_nil, or_false, not_or] at hn
  obtain ⟨h1, h2, h3, h4, h5, h6, h7, h8, h9, h10⟩ := hn
  cases rest with
  | nil => simp [parseLoop, parseOne, h1, h2, h3, h4, h5, h6, h7, h8, h9, h10, ha]
  | cons v t => simp [parseLoop, h1, h2, h3, h4, h5, h6, h7, h8, h9, h10, ha]

theorem ne_of_not_flagLike {a t : String} (ha : flagLike a = false)
    (ht : flagLike t = true) : a ≠ t := by
  intro h
  rw [h, ht] at ha
  exact absurd ha (by simp)

theorem parseLoop_cons_pos {a : String} (ha : flagLike a = false)
    (rest : List String) (s : ScanState) :
    parseLoop (a :: rest) s = parseLoop rest { s with positional := s.positional ++ [a] } := by
  have h1 : a ≠ "-r" := ne_of_not_flagLike ha (by decide)
  have h2 : a ≠ "--recursive" := ne_of_not_flagLike ha (by decide)
  have h3 : a ≠ "--recursion-depth" := ne_of_not_flagLike ha (by decide)
  have h4 : a ≠ "-l" := ne_of_not_flagLike ha (by decide)
  have h5 : a ≠ "--lazy" := ne_of_not_flagLike ha (by decide)
  have h6 : a ≠ "-s" := ne_of_not_flagLike ha (by decide)
  have h7 : a ≠ "--strip-recursive-tar-extension" := ne_of_not_flagLike ha (by decide)
  have h8 : a ≠ "--write-overlay" := ne_of_not_flagLike ha (by decide)
  have h9 : a ≠ "--password" := ne_of_not_flagLike ha (by decide)
  have h10 : a ≠ "--disable-union-mount" := ne_of_not_flagLike ha (by decide)
  cases rest with
  | nil => simp [parseLoop, parseOne, h1, h2, h3, h4, h5, h6, h7, h8, h9, h10, ha]
  | cons v t => simp [parseLoop, h1, h2, h3, h4, h5, h6, h7, h8, h9, h10, ha]

theorem parseLoop_append_extras (e : List String)
    (he : ∀ a ∈ e, flagLike a = true ∧ a ∉ recognizedTokens)
    (rest : List String) (s : ScanState) :
    parseLoop (e ++ rest) s = parseLoop rest { s with extraArgs := s.extraArgs ++ e } := by
  induction e generalizing s with
  | nil => simp
  | cons a t ih =>
    obtain ⟨ha, hn⟩ := he a (List.mem_cons_self a t)
    rw [List.cons_append, parseLoop_cons_extra ha hn,
      ih (fun x hx => he x (List.mem_cons_of_mem a hx))]
    simp [List.append_assoc]

theorem parseLoop_append_pos (ps : List String)
    (hps : ∀ p ∈ ps, flagLike p = false)
    (rest : List String) (s : ScanState) :
    parseLoop (ps ++ rest) s = parseLoop rest { s with positional := s.positional ++ ps } := by
  induction ps generalizing s with
  | nil => simp
  | cons a t ih =>
    rw [List.cons_append, parseLoop_cons_pos (hps a (List.mem_cons_self a t)),
      ih (fun x hx => hps x (List.mem_cons_of_mem a hx))]
    simp [List.append_assoc]

theorem serializeArgs_eq_spec (c : Configuration) : serializeArgs c = serializeSpec c := by
  simp only [serializeArgs, serializeSpec, specPasswordSeg, specRecursionSeg, specOverlaySeg,
    specUnionSeg, specMountSeg]
  by_cases hr : c.recursive <;> by_cases hu : c.unionMount <;>
    by_cases hp : c.password = "" <;> by_cases hw : c.writeOverlay = "" <;>
    simp [hr, hu, hp, hw, List.append_assoc] <;> split_ifs <;> simp [List.append_assoc]

theorem parseLoop_seg_password (c : Configuration) (rest : List String) (s : ScanState) :
    parseLoop (specPasswordSeg c ++ rest) s
      = parseLoop rest (if c.password = "" then s else { s with password := c.password }) := by
  by_cases h : c.password = "" <;> simp [specPasswordSeg, h, parseLoop_cons_password]

theorem parseLoop_seg_overlay (c : Configuration) (rest : List String) (s : ScanState) :
    parseLoop (specOverlaySeg c ++ rest) s
      = parseLoop rest
          (if c.writeOverlay = "" then s else { s with overlay := c.writeOverlay }) := by
  by_cases h : c.writeOverlay = "" <;> simp [specOverlaySeg, h, parseLoop_cons_overlay]

theorem parseLoop_seg_union (c : Configuration) (rest : List String) (s : ScanState) :
    parseLoop (specUnionSeg c ++ rest) s
      = parseLoop rest (if c.unionMount then s else { s with unionMount := false }) := by
  by_cases h : c.unionMount <;> simp [specUnionSeg, h, parseLoop_cons_union]

theorem parseLoop_seg_recursion (c : Configuration) (hd : c.recursionDepth ≤ 100)
    (rest : List String) (s : ScanState) :
    parseLoop (specRecursionSeg c ++ rest) s
      = parseLoop rest
          (if c.recursive then
            { s with recursive := true,
                     depth := if 0 < c.recursionDepth then c.recursionDepth else s.depth,
                     lazy := if c.lazy then true else s.lazy,
                     strip := if c.strip then true else s.strip }
           else s) := by
  by_cases hr : c.recursive
  · have hdepth : ∀ (r : List String) (st : ScanState),
        parseLoop ("--recursion-depth" :: toString c.recursionDepth :: r) st
          = parseLoop r { st with depth := c.recursionDepth } := by
      intro r st
      rw [parseLoop_cons_depth_ok (pyInt_toString _ hd), spinSet_coe _ hd]
    by_cases h1 : 0 < c.recursionDepth <;> by_cases h2 : c.lazy <;> by_cases h3 : c.strip <;>
      simp [specRecursionSeg, hr, h1, h2, h3, parseLoop_cons_recursive, hdepth,
        parseLoop_cons_lazy, parseLoop_cons_strip]
  · simp [specRecursionSeg, hr]

set_option maxHeartbeats 2000000 in
theorem parseLoop_serializeSpec (c : Configuration)
    (hex : ∀ a ∈ c.extraArgs, flagLike a = true ∧ a ∉ recognizedTokens)
    (hsrc : ∀ p ∈ c.sources, p ≠ "" ∧ flagLike p = false)
    (hmp : c.mountPoint ≠ "" → flagLike c.mountPoint = false)
    (hrec : c.recursive = false → c.recursionDepth = 0 ∧ c.lazy = false ∧ c.strip = false)
    (hd : c.recursionDepth ≤ 100) :
    parseLoop (serializeSpec c) initScan =
      { recursive := c.recursive, depth := c.recursionDepth, lazy := c.lazy,
        strip := c.strip, overlay := c.writeOverlay, password := c.password,
        unionMount := c.unionMount, extraArgs := c.extraArgs,
        positional := c.sources ++ specMountSeg c } := by
  have hfilter : c.sources.filter (fun p => p ≠ "") = c.sources := by
    rw [List.filter_eq_self]
    intro a hha
    simpa using (hsrc a hha).1
  have hmpseg : ∀ p ∈ specMountSeg c, flagLike p = false := by
    intro p hp
    by_cases h : c.mountPoint = ""
    · simp [specMountSeg, h] at hp
    · simp [specMountSeg, h] at hp
      exact hp ▸ hmp h
  rw [← List.append_nil (serializeSpec c), serializeSpec]
  simp only [List.append_assoc]
  rw [parseLoop_seg_password, parseLoop_seg_recursion c hd, parseLoop_seg_overlay,
    parseLoop_seg_union, parseLoop_append_extras _ hex, hfilter,
    parseLoop_append_pos _ (fun p hp => (hsrc p hp).2), parseLoop_append_pos _ hmpseg,
    parseLoop_nil]
  by_cases hp : c.password = "" <;> by_cases hr : c.recursive = true <;>
    by_cases hw : c.writeOverlay = "" <;> by_cases hu : c.unionMount = true <;>
    by_cases hdp : 0 < c.recursionDepth <;> by_cases hl : c.lazy = true <;>
    by_cases hst : c.strip = true <;>
    simp_all [initScan]

theorem splitPositional_roundtrip (fs : FsFake) (c : Configuration)
    (hne : c.mountPoint ≠ "" → c.sources ≠ [])
    (hfs1 : c.mountPoint ≠ "" →
      ¬(fs.pathExists c.mountPoint = true ∧ fs.isDir c.mountPoint = false))
    (hfs2 : c.mountPoint = "" → 2 ≤ c.sources.length →
      fs.pathExists (c.sources.getLastD "") = true ∧ fs.isDir (c.sources.getLastD "") = false) :
    splitPositional fs (c.sources ++ specMountSeg c) = (c.sources, c.mountPoint) := by
  by_cases hm : c.mountPoint = ""
  · have hseg : specMountSeg c = [] := by simp [specMountSeg, hm]
    rw [hseg, List.append_nil]
    by_cases hlen : 2 ≤ c.sources.length
    · obtain ⟨he, hdci⟩ := hfs2 hm hlen
      rw [List.getLastD_eq_getLast?] at he hdci
      simp [splitPositional, hlen, hm, he, hdci]
    · simp [splitPositional, hlen, hm]
  · have hseg : specMountSeg c = [c.mountPoint] := by simp [specMountSeg, hm]
    rw [hseg]
    have hsne := hne hm
    have hlen : 2 ≤ (c.sources ++ [c.mountPoint]).length := by
      cases hs : c.sources with
      | nil => exact absurd hs hsne
      | cons a t => simp
    have hlast : (c.sources ++ [c.mountPoint]).getLastD "" = c.mountPoint :=
      List.getLastD_concat _ _ _
    have hcond : (fs.pathExists c.mountPoint && !fs.isDir c.mountPoint) = false := by
      have h1 := hfs1 hm
      cases hpe : fs.pathExists c.mountPoint <;> cases hid : fs.isDir c.mountPoint <;> simp_all
    rw [List.getLastD_eq_getLast?] at hlast
    simp [splitPositional, hlen, hlast, hcond, List.dropLast_concat, hsne]

/-! ## Claim theorems -/

/-- Configuration with a mount point but no sources: serializing emits the
mount point as the only positional token, and re-parsing turns that single
positional token into a source with no mount point. -/
def roundTripCounterConfig : Configuration :=
  { recursive := false, recursionDepth := 0, lazy := false, strip := false,
    writeOverlay := "", password := "", unionMount := true, extraArgs := [],
    sources := [], mountPoint := "/mnt/data" }

/-- Claim C1, counterexample: a Configuration with no empty placeholder
source entries whose serialization does not re-parse to itself. -/
theorem roundTrip_counterexample :
    (∀ p ∈ roundTripCounterConfig.sources, p ≠ "")
    ∧ parse fsNone (onPreviewTokens (previewCmd roundTripCounterConfig))
        ≠ roundTripCounterConfig := by
  constructor
  · intro p hp
    simp [roundTripCounterConfig] at hp
  · decide

/-- Claim C1 (amended): parsing the serialization of a well-formed
Configuration reproduces it exactly.  Well-formed means: extraArgs tokens
are unrecognized flag-like tokens, sources are nonempty non-flag strings, a
set mount point is non-flag and accompanied by at least one source, the
recursion sub-fields are cleared when `recursive` is false, the depth is in
the spin-button range, and the fake filesystem classifies a set mount point
as not-an-existing-file and, with no mount point and two or more sources,
the last source as an existing non-directory. -/
theorem roundTrip_wellFormed (fs : FsFake) (c : Configuration)
    (hex : ∀ a ∈ c.extraArgs, flagLike a = true ∧ a ∉ recognizedTokens)
    (hsrc : ∀ p ∈ c.sources, p ≠ "" ∧ flagLike p = false)
    (hmp : c.mountPoint ≠ "" → flagLike c.mountPoint = false ∧ c.sources ≠ [])
    (hrec : c.recursive = false → c.recursionDepth = 0 ∧ c.lazy = false ∧ c.strip = false)
    (hd : c.recursionDepth ≤ 100)
    (hfs1 : c.mountPoint ≠ "" →
      ¬(fs.pathExists c.mountPoint = true ∧ fs.isDir c.mountPoint = false))
    (hfs2 : c.mountPoint = "" → 2 ≤ c.sources.length →
      fs.pathExists (c.sources.getLastD "") = true ∧ fs.isDir (c.sources.getLastD "") = false) :
    parse fs (onPreviewTokens (previewCmd c)) = c := by
  have hstrip : onPreviewTokens (previewCmd c) = serializeArgs c := by
    simp [onPreviewTokens, previewCmd]
  rw [hstrip, serializeArgs_eq_spec]
  simp only [parse]
  rw [parseLoop_serializeSpec c hex hsrc (fun h => (hmp h).1) hrec hd]
  rw [splitPositional_roundtrip fs c (fun h => (hmp h).2) hfs1 hfs2]

/-- Witness Configuration exercising every field of the round-trip. -/
def roundTripWitnessConfig : Configuration :=
  { recursive := true, recursionDepth := 3, lazy := true, strip := false,
    writeOverlay := "/tmp/ov", password := "pw", unionMount := false,
    extraArgs := ["--foo"], sources := ["a.tar", "b.tar"], mountPoint := "/mnt/x" }

/-- Claim C1, witness: the amended round-trip at a concrete Configuration
and fake filesystem. -/
theorem roundTrip_wellFormed_witness :
    parse fsNone (onPreviewTokens (previewCmd roundTripWitnessConfig))
      = roundTripWitnessConfig :=
  roundTrip_wellFormed fsNone roundTripWitnessConfig (by decide) (by decide) (by decide)
    (by decide) (by decide) (by decide) (by decide)



/-- Claim C2: precedence of the positional split after the flag scan.  With
two or more positional entries whose last entry names an existing
non-directory, all entries become sources and no mount point is set;
otherwise the last entry becomes the mount point and the rest sources; a
single entry is a source without mount point; no entries give neither. -/
theorem positionalSplit_precedence (fs : FsFake) (args : List String) :
    ((parseLoop args initScan).positional = [] →
      (parse fs args).sources = [] ∧ (parse fs args).mountPoint = "")
    ∧ ((parseLoop args initScan).positional.length = 1 →
      (parse fs args).sources = (parseLoop args initScan).positional
        ∧ (parse fs args).mountPoint = "")
    ∧ (2 ≤ (parseLoop args initScan).positional.length →
      fs.pathExists ((parseLoop args initScan).positional.getLastD "") = true →
      fs.isDir ((parseLoop args initScan).positional.getLastD "") = false →
      (parse fs args).sources = (parseLoop args initScan).positional
        ∧ (parse fs args).mountPoint = "")
    ∧ (2 ≤ (parseLoop args initScan).positional.length →
      ¬(fs.pathExists ((parseLoop args initScan).positional.getLastD "") = true
          ∧ fs.isDir ((parseLoop args initScan).positional.getLastD "") = false) →
      (parse fs args).sources = (parseLoop args initScan).positional.dropLast
        ∧ (parse fs args).mountPoint = (parseLoop args initScan).positional.getLastD "") := by
  simp only [parse]
  refine ⟨?_, ?_, ?_, ?_⟩
  · intro h
    simp [splitPositional, h]
  · intro h
    have hnot : ¬ 2 ≤ (parseLoop args initScan).positional.length := by omega
    simp [splitPositional, hnot]
  · intro hlen he hdci
    rw [List.getLastD_eq_getLast?] at he hdci
    simp [splitPositional, hlen, he, hdci]
  · intro hlen hcond
    have hcond' : (fs.pathExists ((parseLoop args initScan).positional.getLastD "")
        && !fs.isDir ((parseLoop args initScan).positional.getLastD "")) = false := by
      cases hpe : fs.pathExists ((parseLoop args initScan).positional.getLastD "") <;>
        cases hid : fs.isDir ((parseLoop args initScan).positional.getLastD "") <;> simp_all
    rw [List.getLastD_eq_getLast?] at hcond' ⊢
    simp [splitPositional, hlen, hcond']

/-- Claim C2, witness: the spec's directory/nonexistent example on a fake
filesystem where nothing exists. -/
theorem positionalSplit_precedence_witness :
    (parse fsNone ["a.tar", "/nonexistent/dir"]).sources = ["a.tar"]
      ∧ (parse fsNone ["a.tar", "/nonexistent/dir"]).mountPoint = "/nonexistent/dir" := by
  have h := (positionalSplit_precedence fsNone ["a.tar", "/nonexistent/dir"]).2.2.2
    (by decide) (by decide)
  exact ⟨h.1.trans (by decide), h.2.trans (by decide)⟩



/-- Claim C3: `update_preview` emits tokens exactly in the fixed order the
spec gives (password, recursion block, overlay, union-mount, extraArgs,
non-empty sources, mount point last), and a recursion depth of zero emits
no `--recursion-depth` token in the recursion block. -/
theorem serialize_emission_order (c : Configuration) :
    serializeArgs c = serializeSpec c
    ∧ (c.recursionDepth = 0 → "--recursion-depth" ∉ specRecursionSeg c) := by
  refine ⟨serializeArgs_eq_spec c, ?_⟩
  intro h0
  by_cases hr : c.recursive <;> by_cases hl : c.lazy <;> by_cases hst : c.strip <;>
    simp [specRecursionSeg, hr, hl, hst, h0]

/-- Configuration with `recursive` set and depth zero, for the emission
witness. -/
def depthZeroConfig : Configuration :=
  { recursive := true, recursionDepth := 0, lazy := true, strip := true,
    writeOverlay := "", password := "", unionMount := true, extraArgs := [],
    sources := ["a.tar"], mountPoint := "" }

/-- Claim C3, witness: the emission order and the depth-zero omission at a
concrete Configuration. -/
theorem serialize_emission_order_witness :
    serializeArgs depthZeroConfig = serializeSpec depthZeroConfig
    ∧ "--recursion-depth" ∉ specRecursionSeg depthZeroConfig :=
  ⟨(serialize_emission_order depthZeroConfig).1,
    (serialize_emission_order depthZeroConfig).2 rfl⟩

/-- Claim C4: a `--recursion-depth` whose value does not parse as an
integer pushes the flag token itself to `extra_args` and leaves the value
token to be reprocessed (it becomes a positional token, hence a source);
a value-requiring flag that is the last token is likewise pushed to
`extra_args`. -/
theorem recursionDepth_badValue :
    (∀ (v : String) (rest : List String) (s : ScanState), pyInt v = none →
      parseLoop ("--recursion-depth" :: v :: rest) s
        = parseLoop (v :: rest) { s with extraArgs := s.extraArgs ++ ["--recursion-depth"] })
    ∧ (∀ s : ScanState, parseLoop ["--recursion-depth"] s
        = { s with extraArgs := s.extraArgs ++ ["--recursion-depth"] })
    ∧ (∀ s : ScanState, parseLoop ["--password"] s
        = { s with extraArgs := s.extraArgs ++ ["--password"] })
    ∧ (∀ s : ScanState, parseLoop ["--write-overlay"] s
        = { s with extraArgs := s.extraArgs ++ ["--write-overlay"] })
    ∧ (parse fsNone ["--recursion-depth", "x"]).extraArgs = ["--recursion-depth"]
    ∧ (parse fsNone ["--recursion-depth", "x"]).sources = ["x"] :=
  ⟨fun _ rest s hv => parseLoop_cons_depth_bad hv rest s,
    parseLoop_single_depth, parseLoop_single_password, parseLoop_single_overlay,
    by decide, by decide⟩

/-- Claim C4, witness: the bad-integer rule applied at the concrete value
token `"x"`. -/
theorem recursionDepth_badValue_witness :
    pyInt "x" = none
    ∧ parseLoop ["--recursion-depth", "x"] initScan
        = parseLoop ["x"] { initScan with extraArgs := initScan.extraArgs ++ ["--recursion-depth"] } :=
  ⟨by decide, recursionDepth_badValue.1 "x" [] initScan (by decide)⟩

/-- Claim C9: a value-requiring flag consumes the next token as its value
unconditionally, even when that token looks like a flag; in particular
`--password --recursive` stores the literal `"--recursive"` as password and
leaves `recursive` unset. -/
theorem valueFlag_consumesNext (t : String) (rest : List String) (s : ScanState) :
    parseLoop ("--password" :: t :: rest) s = parseLoop rest { s with password := t }
    ∧ parseLoop ("--write-overlay" :: t :: rest) s = parseLoop rest { s with overlay := t }
    ∧ (parse fsNone ["--password", "--recursive"]).password = "--recursive"
    ∧ (parse fsNone ["--password", "--recursive"]).recursive = false :=
  ⟨parseLoop_cons_password t rest s, parseLoop_cons_overlay t rest s, by decide, by decide⟩



/-- Claim C5: `on_child_exit` decodes the wait status so that the result is
`Success` exactly when the child exited normally with code 0, a nonzero
normal exit surfaces the code itself, and a signal kill surfaces the
negated signal number, so the sign separates the two cases. -/
theorem termination_classification (st : ChildStatus)
    (hsig : ∀ sig, st = ChildStatus.signaled sig → 1 ≤ sig) :
    (classify st = ExitOutcome.success ↔ st = ChildStatus.exited 0)
    ∧ (decodeStatus st = 0 ↔ st = ChildStatus.exited 0)
    ∧ (∀ n, st = ChildStatus.exited n →
        decodeStatus st = (n : Int) ∧ 0 ≤ decodeStatus st
          ∧ (n ≠ 0 → classify st = ExitOutcome.exitCode n))
    ∧ (∀ sig, st = ChildStatus.signaled sig →
        classify st = ExitOutcome.signaledBy sig
          ∧ decodeStatus st = -(sig : Int) ∧ decodeStatus st < 0) := by
  cases st with
  | exited n =>
    cases n with
    | zero => simp [classify, decodeStatus]
    | succ m =>
      refine ⟨by simp [classify], by simp [decodeStatus]; omega, ?_, ?_⟩
      · intro k hk
        obtain rfl : m + 1 = k := by injection hk
        refine ⟨by simp [decodeStatus], by simp [decodeStatus]; omega,
          fun _ => by simp [classify]⟩
      · intro sig hsig2
        exact absurd hsig2 (by simp)
  | signaled sg =>
    have h1 := hsig sg rfl
    refine ⟨by simp [classify], ?_, ?_, ?_⟩
    · simp only [decodeStatus]
      constructor
      · intro h; omega
      · intro h; exact absurd h (by simp)
    · intro k hk
      exact absurd hk (by simp)
    · intro k hk
      obtain rfl : sg = k := by injection hk
      refine ⟨by simp [classify], by simp [decodeStatus], ?_⟩
      simp only [decodeStatus]
      omega

/-- Claim C5, witness: an interrupt-signal kill (signal 2) surfaces -2 and
classifies as `Signaled(2)`; exit 0 and exit 2 behave as documented. -/
theorem termination_classification_witness :
    (decodeStatus (ChildStatus.signaled 2) = -2
      ∧ classify (ChildStatus.signaled 2) = ExitOutcome.signaledBy 2
      ∧ decodeStatus (ChildStatus.signaled 2) < 0)
    ∧ (classify (ChildStatus.exited 0) = ExitOutcome.success)
    ∧ (classify (ChildStatus.exited 2) = ExitOutcome.exitCode 2
      ∧ decodeStatus (ChildStatus.exited 2) = 2) := by
  have h2 := (termination_classification (ChildStatus.signaled 2)
    (by intro sig h; injection h with h; omega)).2.2.2 2 rfl
  have h0 := (termination_classification (ChildStatus.exited 0)
    (by intro sig h; exact absurd h (by simp))).1.mpr rfl
  have hx := (termination_classification (ChildStatus.exited 2)
    (by intro sig h; exact absurd h (by simp))).2.2.1 2 rfl
  exact ⟨⟨h2.2.1, h2.1, h2.2.2⟩, h0, hx.2.2 (by decide), hx.1⟩



/-- Claim C6, counterexample: `start_execution` performs no running-child
check, so a second call while a child is tracked spawns again and replaces
the tracked pid instead of failing. -/
theorem noOverlap_counterexample :
    (startExecution (Except.ok 100) initState).childPid = some 100
    ∧ (startExecution (Except.ok 200) (startExecution (Except.ok 100) initState)).childPid
        = some 200
    ∧ (startExecution (Except.ok 200) (startExecution (Except.ok 100) initState)).childPid
        ≠ (startExecution (Except.ok 100) initState).childPid := by
  exact ⟨rfl, rfl, by decide⟩

/-- Claim C6 (amended): `start_execution` has no overlap guard: invoked
while a child is tracked as running, it proceeds to spawn and overwrites
the tracked child pid; exclusivity comes only from the host UI flow. -/
theorem run_overwritesChild (s : SupState) (q pid : Nat) (h : s.childPid = some q) :
    (startExecution (Except.ok pid) s).childPid = some pid := by
  simp [startExecution]

/-- Claim C6, witness: a second run over a tracked child pid 1 installs
pid 2. -/
theorem run_overwritesChild_witness :
    (startExecution (Except.ok 2) { initState with childPid := some 1 }).childPid = some 2 :=
  run_overwritesChild { initState with childPid := some 1 } 1 2 rfl

/-- Claim C7, counterexample: after a spawn failure `return_code` is still
unset, so the close handler exits with 0 — the code surfaced for a spawn
failure is 0, not a nonzero sentinel distinct from every real exit code. -/
theorem spawnFailed_exitCode_counterexample :
    (startExecution (Except.error "No such file") initState).returnCode = none
    ∧ (onCloseClicked (startExecution (Except.error "No such file") initState)).appExit
        = some 0 := by
  exact ⟨rfl, rfl⟩

/-- Claim C7 (amended): on a spawn failure the run never reaches Running
(`child_pid` stays unset) and `return_code` stays unset, the abort button is
hidden and the error logged; but the exit code surfaced on close is 0, the
same value as on Success, not a nonzero sentinel. -/
theorem spawnFailure_behavior (s : SupState) (e : String)
    (hidle : s.childPid = none) (hrc : s.returnCode = none) :
    (startExecution (Except.error e) s).childPid = none
    ∧ (startExecution (Except.error e) s).returnCode = none
    ∧ (startExecution (Except.error e) s).abortVisible = false
    ∧ (startExecution (Except.error e) s).logText = "Error starting command: " ++ e
    ∧ (onCloseClicked (startExecution (Except.error e) s)).appExit = some 0 := by
  simp only [startExecution, onCloseClicked]
  split_ifs <;> simp [hidle, hrc]

/-- Claim C7, witness: the spawn-failure behavior at the initial state. -/
theorem spawnFailure_behavior_witness :
    (startExecution (Except.error "boom") initState).childPid = none
    ∧ (startExecution (Except.error "boom") initState).returnCode = none
    ∧ (startExecution (Except.error "boom") initState).abortVisible = false
    ∧ (startExecution (Except.error "boom") initState).logText = "Error starting command: boom"
    ∧ (onCloseClicked (startExecution (Except.error "boom") initState)).appExit = some 0 :=
  spawnFailure_behavior initState "boom" rfl rfl

/-- Claim C8: the silent-start timer is 1 second; when it fires with the
child still running the window is revealed; a success completion before the
timer exits the application without presenting, and the timer afterwards is
a no-op; any non-success completion of a hidden execution presents the
window regardless of the timer; and completion immediately clears the
liveness field `child_pid`, so the liveness query never reports running
after completion. -/
theorem delayedReveal_policy (s : SupState) (st : ChildStatus) :
    autoRunTimerMs = 1000
    ∧ (s.childPid ≠ none →
        (checkShowWindow s).presented = true ∧ (checkShowWindow s).isHiddenExecution = false)
    ∧ (decodeStatus st = 0 →
        (onChildExit st s).appExit = some 0
          ∧ (onChildExit st s).presented = s.presented
          ∧ checkShowWindow (onChildExit st s) = onChildExit st s)
    ∧ (decodeStatus st ≠ 0 → s.isHiddenExecution = true →
        (onChildExit st s).presented = true)
    ∧ (onChildExit st s).childPid = none := by
  refine ⟨rfl, ?_, ?_, ?_, ?_⟩
  · intro h
    simp [checkShowWindow, h]
  · intro h
    refine ⟨by simp [onChildExit, h], by simp [onChildExit, h], ?_⟩
    have hnone : (onChildExit st s).childPid = none := by
      simp only [onChildExit]
      split_ifs <;> rfl
    simp [checkShowWindow, hnone]
  · intro h hh
    simp [onChildExit, h, hh]
  · simp only [onChildExit]
    split_ifs <;> rfl

/-- Claim C8, witness: a hidden execution with a live child pid 5 is
revealed by the timer; a success exit of that state terminates the
application silently and the timer afterwards does nothing. -/
theorem delayedReveal_policy_witness :
    ((checkShowWindow { initState with isHiddenExecution := true, childPid := some 5 }).presented
        = true)
    ∧ ((onChildExit (ChildStatus.exited 0)
          { initState with isHiddenExecution := true, childPid := some 5 }).appExit = some 0)
    ∧ ((onChildExit (ChildStatus.exited 1)
          { initState with isHiddenExecution := true, childPid := some 5 }).presented = true) := by
  have h := delayedReveal_policy
    { initState with isHiddenExecution := true, childPid := some 5 } (ChildStatus.exited 0)
  have h1 := delayedReveal_policy
    { initState with isHiddenExecution := true, childPid := some 5 } (ChildStatus.exited 1)
  exact ⟨(h.2.1 (by decide)).1, (h.2.2.1 (by decide)).1, h1.2.2.2.1 (by decide) rfl⟩

/-- Claim C10: a normal child exit with code 0 makes the application exit
immediately with status 0, in hidden and visible mode alike, without
presenting the window; on any non-success decode the application keeps
running (the log and window persist). -/
theorem success_exits_application (s : SupState) :
    (onChildExit (ChildStatus.exited 0) s).appExit = some 0
    ∧ (onChildExit (ChildStatus.exited 0) s).presented = s.presented
    ∧ (∀ st : ChildStatus, decodeStatus st ≠ 0 →
        (onChildExit st s).appExit = s.appExit) := by
  refine ⟨by simp [onChildExit, decodeStatus], by simp [onChildExit, decodeStatus], ?_⟩
  intro st h
  simp only [onChildExit]
  split_ifs with h1 h2
  · exact absurd h1 h
  · rfl
  · rfl

/-- Claim C10, witness: exit 0 terminates the application from a hidden
execution state; exit 2 leaves it running. -/
theorem success_exits_application_witness :
    (onChildExit (ChildStatus.exited 0)
        { initState with isHiddenExecution := true }).appExit = some 0
    ∧ (onChildExit (ChildStatus.exited 2)
        { initState with isHiddenExecution := true }).appExit = none := by
  have h := success_exits_application { initState with isHiddenExecution := true }
  exact ⟨h.1, (h.2.2 (ChildStatus.exited 2) (by decide))⟩


end RatarmountUI
